import Mathlib

/-!
Verification development for the sticker-dream repository.

The repository exposes an HTTP layer (src/server.ts) and a browser client.
The server imports the printer core from a module print.ts that is not part
of the available sources; only its call sites and the design document are.
Definitions taken from available source files are translated directly from
the code; definitions for the missing printer core carry a doc comment
starting with "Modelled from the spec:" and follow the design document
word for word.
-/

namespace StickerDream

/-- Printer status enumeration, from the data model of the design document
(section 3): Idle, Printing, Paused, Error, Offline, Unknown. -/
inductive PStatus
  | Idle
  | Printing
  | Paused
  | Error
  | Offline
  | Unknown
deriving DecidableEq, Repr

/-- Printer record as exposed by the registry and by GET /api/printers in
src/server.ts (fields name, isDefault, isUSB, status). -/
structure Printer where
  name : String
  isDefault : Bool
  isUSB : Bool
  status : PStatus
deriving DecidableEq, Repr

/-- A printer is usable when its status is not Offline and not Error
(design document section 4.3, step 1). -/
def usable (p : Printer) : Bool :=
  decide (p.status ≠ PStatus.Offline ∧ p.status ≠ PStatus.Error)

/-- Look a printer up by name in a snapshot: first printer whose name field
equals the requested name. -/
def findPrinter (n : String) (s : List Printer) : Option Printer :=
  s.find? (fun p => decide (p.name = n))

/-- Errors the resolution step can produce (design document section 7). -/
inductive ResolutionError
  | PrinterNotFound
  | PrinterUnusable
  | NoUsablePrinter
deriving DecidableEq, Repr

/-- The printer a lastSelected hint selects: the hint is present, a printer
with that name is in the snapshot, and it is usable; otherwise none
(design document section 4.3, step 2). -/
def lastSelectedMatch (lastSelected : Option String) (snapshot : List Printer) :
    Option Printer :=
  match lastSelected with
  | some n =>
    match findPrinter n snapshot with
    | some p => if usable p then some p else none
    | none => none
  | none => none

/-- The printer the default step selects: the snapshot contains a printer
with isDefault = true and it is usable; otherwise none (design document
section 4.3, step 3). -/
def defaultMatch (snapshot : List Printer) : Option Printer :=
  match snapshot.find? (fun p => p.isDefault) with
  | some p => if usable p then some p else none
  | none => none

/-- The printer the USB fallback selects: the first usable printer with
isUSB = true, if any (design document section 4.3, step 4). -/
def usbMatch (snapshot : List Printer) : Option Printer :=
  snapshot.find? (fun p => p.isUSB && usable p)

/-- Modelled from the spec: step 4 and step 5 of TargetResolver.resolve in
the missing printer core (print.ts): the first usable USB printer, else the
NoUsablePrinter error. -/
def resolveUSBStep (snapshot : List Printer) : Except ResolutionError Printer :=
  match usbMatch snapshot with
  | some p => Except.ok p
  | none => Except.error ResolutionError.NoUsablePrinter

/-- Modelled from the spec: steps 3 to 5 of TargetResolver.resolve in the
missing printer core (print.ts): the printer with isDefault = true if
usable, else fall through to the USB fallback. -/
def resolveDefaultStep (snapshot : List Printer) : Except ResolutionError Printer :=
  match snapshot.find? (fun p => p.isDefault) with
  | some p => if usable p then Except.ok p else resolveUSBStep snapshot
  | none => resolveUSBStep snapshot

/-- Modelled from the spec: TargetResolver.resolve of the missing printer
core (print.ts, imported by src/server.ts), following section 4.3 of the
design document. Resolution order, first match wins: an explicit name if
present must be found and usable, else the call fails with PrinterNotFound
or PrinterUnusable; with no explicit name, a lastSelected hint that is
found and usable is used, else the usable default printer, else the first
usable USB printer, else the call fails with NoUsablePrinter. -/
def resolve (explicitName lastSelected : Option String) (snapshot : List Printer) :
    Except ResolutionError Printer :=
  match explicitName with
  | some n =>
    match findPrinter n snapshot with
    | none => Except.error ResolutionError.PrinterNotFound
    | some p => if usable p then Except.ok p else Except.error ResolutionError.PrinterUnusable
  | none =>
    match lastSelected with
    | some n =>
      match findPrinter n snapshot with
      | some p => if usable p then Except.ok p else resolveDefaultStep snapshot
      | none => resolveDefaultStep snapshot
    | none => resolveDefaultStep snapshot

/-- Formatting options a submission carries: fitToPage and copies
(src/server.ts passes an object with these two fields). -/
structure PrintOptions where
  fitToPage : Bool
  copies : Int
deriving DecidableEq, Repr

/-- An incoming HTTP request as the print endpoint of src/server.ts reads
it: a header list, a query-parameter list and a raw body (the image bytes). -/
structure HttpRequest where
  headers : List (String × String)
  query : List (String × String)
  body : List Nat
deriving DecidableEq, Repr

/-- First header or query value stored under the given key, if any. -/
def lookupKey (kvs : List (String × String)) (k : String) : Option String :=
  (kvs.find? (fun kv => decide (kv.1 = k))).map (fun kv => kv.2)

/-- JavaScript truthiness on an optional string: undefined, null and the
empty string are falsy. -/
def jsTruthy : Option String → Option String
  | some s => if s = "" then none else some s
  | none => none

/-- The printer-name hint the print endpoint extracts, translated from
src/server.ts line 124: the X-Printer-Name header, or-else the printer
query parameter, with JavaScript truthiness deciding both the or-else and
the branch taken afterwards. -/
def requestPrinterName (req : HttpRequest) : Option String :=
  match jsTruthy (lookupKey req.headers "X-Printer-Name") with
  | some s => some s
  | none => jsTruthy (lookupKey req.query "printer")

/-- The submission call the print endpoint makes: either printImage on a
named printer or printToUSB, each with an image and options. -/
inductive PrintCall
  | toNamed (printerName : String) (image : List Nat) (opts : PrintOptions)
  | toUSB (image : List Nat) (opts : PrintOptions)
deriving DecidableEq, Repr

/-- The options field of a submission call. -/
def callOptions : PrintCall → PrintOptions
  | PrintCall.toNamed _ _ o => o
  | PrintCall.toUSB _ o => o

/-- The call the POST /api/print handler of src/server.ts (lines 121 to
146) makes: with a truthy printer-name hint it calls printImage on that
name, otherwise printToUSB; on both paths the options are the literals
fitToPage = true and copies = 1. -/
def printEndpointCall (req : HttpRequest) : PrintCall :=
  match requestPrinterName req with
  | some n => PrintCall.toNamed n req.body { fitToPage := true, copies := 1 }
  | none => PrintCall.toUSB req.body { fitToPage := true, copies := 1 }

/-- Success payload of the print endpoint: the printer name and the job id
returned to the client. -/
structure PrintSuccess where
  printerName : String
  jobId : String
deriving DecidableEq, Repr

/-- The response of the POST /api/print handler of src/server.ts (lines
121 to 162), parameterised by the outcomes of the two functions it imports
from the missing print.ts: printImage (returns a job id for a named
printer) and printToUSB (returns printer name and job id). A thrown error
becomes the error-message response of the catch block. -/
def printEndpointRespond
    (printImageResult : String → List Nat → PrintOptions → Except String String)
    (printToUSBResult : List Nat → PrintOptions → Except String PrintSuccess)
    (req : HttpRequest) : Except String PrintSuccess :=
  match requestPrinterName req with
  | some n =>
    match printImageResult n req.body { fitToPage := true, copies := 1 } with
    | Except.ok j => Except.ok { printerName := n, jobId := j }
    | Except.error e => Except.error e
  | none =>
    match printToUSBResult req.body { fitToPage := true, copies := 1 } with
    | Except.ok r => Except.ok r
    | Except.error e => Except.error e

/-- State of the printer registry: the current snapshot. -/
structure RegistryState where
  snapshot : List Printer
deriving DecidableEq, Repr

/-- Modelled from the spec: PrinterRegistry.refresh of the missing printer
core (print.ts), following section 4.1 of the design document: a successful
host enumeration replaces the snapshot wholesale; a failed one keeps the
previous snapshot and signals the failure to the caller. -/
def refresh (st : RegistryState) (enumResult : Except String (List Printer)) :
    RegistryState × Except String Unit :=
  match enumResult with
  | Except.ok ps => ({ snapshot := ps }, Except.ok ())
  | Except.error e => (st, Except.error e)

/-- Modelled from the spec: PrinterRegistry.list of the missing printer
core (print.ts): the current snapshot. -/
def listPrinters (st : RegistryState) : List Printer :=
  st.snapshot

/-- A snapshot is well formed when at most one printer in it has
isDefault = true (design document section 3). -/
def atMostOneDefault (s : List Printer) : Prop :=
  (s.filter (fun p => p.isDefault)).length ≤ 1

/-- Modelled from the spec: the resume commands one polling tick of
watchAndResumePrinters (the QueueWatcher of the missing print.ts) issues,
following section 4.2 of the design document: one resume command per
printer whose status is Paused, no command for Idle, Printing, Unknown,
Error or Offline printers. -/
def tickResumeCommands (snapshot : List Printer) : List String :=
  (snapshot.filter (fun p => decide (p.status = PStatus.Paused))).map Printer.name

/-- Modelled from the spec: one polling tick of the QueueWatcher over the
registry. The watcher issues its resume commands sequentially within the
tick and never writes printer state itself (only refresh writes the
snapshot), so the registry state after the tick is the state before it,
whatever each resume call returned; in particular a printer whose resume
call failed still has status Paused afterwards, until a later tick. -/
def watcherTick (resumeSucceeds : String → Bool) (st : RegistryState) :
    List (String × Bool) × RegistryState :=
  ((tickResumeCommands (listPrinters st)).map (fun n => (n, resumeSucceeds n)), st)

/-- Typed submission errors (design document section 7). -/
inductive SubmissionError
  | InvalidOptions
  | TransportWriteFailed
  | SpoolerRejected
  | SubmissionTimeout
deriving DecidableEq, Repr

/-- A call to the device transport or the spooler, recorded for the
call-trace of a submission. -/
inductive DeviceCall
  | rawWrite (printerName : String) (bytes : List Nat)
  | spoolEnqueue (printerName : String) (bytes : List Nat) (opts : PrintOptions)
deriving DecidableEq, Repr

/-- Job status enumeration for submitted jobs (design document section 3). -/
inductive JobStatus
  | Submitted
  | Queued
  | Printing
  | Completed
  | Failed
deriving DecidableEq, Repr

/-- A print job as created by one submission. -/
structure PrintJob where
  id : String
  printerName : String
  copies : Int
  fitToPage : Bool
  status : JobStatus
deriving DecidableEq, Repr

/-- Outcomes of the host primitives the submitter uses: the raw USB write
and the spooler enqueue. -/
structure HostModel where
  rawWrite : String → List Nat → Except String Unit
  spoolJob : String → List Nat → PrintOptions → Except String String

/-- Modelled from the spec: JobSubmitter.submit of the missing printer core
(print.ts), following section 4.4 of the design document: copies that are
zero or negative are rejected with InvalidOptions before any device
interaction; otherwise the call branches on target.isUSB into one raw
device write or one spooler enqueue. The second component is the list of
device and spooler calls the submission made. -/
def submit (host : HostModel) (target : Printer) (image : List Nat)
    (opts : PrintOptions) : Except SubmissionError PrintJob × List DeviceCall :=
  if opts.copies ≤ 0 then
    (Except.error SubmissionError.InvalidOptions, [])
  else if target.isUSB then
    match host.rawWrite target.name image with
    | Except.ok _ =>
      (Except.ok { id := "usb-job", printerName := target.name, copies := opts.copies,
                   fitToPage := opts.fitToPage, status := JobStatus.Submitted },
       [DeviceCall.rawWrite target.name image])
    | Except.error _ =>
      (Except.error SubmissionError.TransportWriteFailed,
       [DeviceCall.rawWrite target.name image])
  else
    match host.spoolJob target.name image opts with
    | Except.ok jid =>
      (Except.ok { id := jid, printerName := target.name, copies := opts.copies,
                   fitToPage := opts.fitToPage, status := JobStatus.Queued },
       [DeviceCall.spoolEnqueue target.name image opts])
    | Except.error _ =>
      (Except.error SubmissionError.SpoolerRejected,
       [DeviceCall.spoolEnqueue target.name image opts])

/-- Browser-side selection state, from src/unnamed/part_000: the in-memory
selectedPrinter variable and the selectedPrinter key of localStorage. -/
structure ClientState where
  selectedPrinter : Option String
  storedPrinter : Option String
deriving DecidableEq, Repr

/-- The change listener of the printer select element, translated from
src/unnamed/part_000 lines 212 to 216: it sets the in-memory selection to
the chosen value and writes the same value to localStorage. -/
def onPrinterSelectChange (st : ClientState) (v : String) : ClientState :=
  { st with selectedPrinter := some v, storedPrinter := some v }

/-- The headers the print-button click listener builds, translated from
src/unnamed/part_000 lines 286 to 293: a Content-Type header, plus an
X-Printer-Name header carrying the selected printer when that selection is
truthy. -/
def printRequestHeaders (selectedPrinter : Option String) : List (String × String) :=
  ("Content-Type", "image/png") ::
    (match jsTruthy selectedPrinter with
     | some s => [("X-Printer-Name", s)]
     | none => [])

/-- The print request the client sends, from src/unnamed/part_000 lines
295 to 299: the built headers and the current image blob as the body, with
no query string. -/
def mkPrintRequest (selectedPrinter : Option String) (image : List Nat) : HttpRequest :=
  { headers := printRequestHeaders selectedPrinter, query := [], body := image }

/-- Concrete one-printer registry used to exercise refresh. -/
def regA : RegistryState :=
  { snapshot := [{ name := "A", isDefault := true, isUSB := false, status := PStatus.Idle }] }

/-- Concrete Paused printer used to exercise the watcher. -/
def pausedP : Printer :=
  { name := "P", isDefault := false, isUSB := false, status := PStatus.Paused }

/-- Concrete Idle printer used to exercise the watcher. -/
def idleQ : Printer :=
  { name := "Q", isDefault := true, isUSB := true, status := PStatus.Idle }

/-- Concrete two-printer registry used to exercise the watcher. -/
def regPQ : RegistryState :=
  { snapshot := [pausedP, idleQ] }

/-- Concrete host enumeration reporting one non-default usable USB printer. -/
def enumU : List Printer :=
  [{ name := "U", isDefault := false, isUSB := true, status := PStatus.Idle }]

/-! Helper lemmas shared by the resolution theorems. -/

lemma resolveUSBStep_eq (s : List Printer) :
    resolveUSBStep s = match usbMatch s with
      | some p => Except.ok p
      | none => Except.error ResolutionError.NoUsablePrinter := rfl

lemma resolveDefaultStep_eq (s : List Printer) :
    resolveDefaultStep s = match defaultMatch s with
      | some p => Except.ok p
      | none => resolveUSBStep s := by
  unfold resolveDefaultStep defaultMatch
  cases List.find? (fun p => p.isDefault) s with
  | none => rfl
  | some q => cases hu : usable q <;> simp [hu]

lemma resolve_none_eq (l : Option String) (s : List Printer) :
    resolve none l s = match lastSelectedMatch l s with
      | some p => Except.ok p
      | none => resolveDefaultStep s := by
  cases l with
  | none => rfl
  | some n =>
    cases hf : findPrinter n s with
    | none => simp [resolve, lastSelectedMatch, hf]
    | some p =>
      cases hu : usable p with
      | true => simp [resolve, lastSelectedMatch, hf, hu]
      | false => simp [resolve, lastSelectedMatch, hf, hu]

/-- C1: resolve picks the first match in the fixed order — the explicitly
named printer when present and usable, else (with no explicit hint) the
last-selected printer when present and usable, else the default printer
when usable, else a usable USB printer — and it returns the error
NoUsablePrinter exactly when there is no explicit hint and the
last-selected, default and USB steps all produce nothing. -/
theorem resolve_resolution_order (e l : Option String) (s : List Printer) :
    (∀ n p, e = some n → findPrinter n s = some p → usable p = true →
        resolve e l s = Except.ok p)
  ∧ (∀ p, e = none → lastSelectedMatch l s = some p → resolve e l s = Except.ok p)
  ∧ (∀ p, e = none → lastSelectedMatch l s = none → defaultMatch s = some p →
        resolve e l s = Except.ok p)
  ∧ (∀ p, e = none → lastSelectedMatch l s = none → defaultMatch s = none →
        usbMatch s = some p → resolve e l s = Except.ok p)
  ∧ (resolve e l s = Except.error ResolutionError.NoUsablePrinter ↔
        e = none ∧ lastSelectedMatch l s = none ∧ defaultMatch s = none ∧
        usbMatch s = none) := by
  refine ⟨?_, ?_, ?_, ?_, ?_, ?_⟩
  · rintro n p rfl hf hu
    simp [resolve, hf, hu]
  · rintro p rfl hm
    simp [resolve_none_eq, hm]
  · rintro p rfl hm hd
    simp [resolve_none_eq, hm, resolveDefaultStep_eq, hd]
  · rintro p rfl hm hd hu
    simp [resolve_none_eq, hm, resolveDefaultStep_eq, hd, resolveUSBStep_eq, hu]
  · intro h
    cases e with
      | some n =>
        exfalso
        cases hf : findPrinter n s with
        | none => simp [resolve, hf] at h
        | some p =>
          cases hu : usable p with
          | true => simp [resolve, hf, hu] at h
          | false => simp [resolve, hf, hu] at h
      | none =>
        rw [resolve_none_eq] at h
        cases hm : lastSelectedMatch l s with
        | some p => rw [hm] at h; exact absurd h (by simp)
        | none =>
          rw [hm] at h
          simp only [] at h
          rw [resolveDefaultStep_eq] at h
          cases hd : defaultMatch s with
          | some p => rw [hd] at h; exact absurd h (by simp)
          | none =>
            rw [hd] at h
            simp only [] at h
            rw [resolveUSBStep_eq] at h
            cases hu : usbMatch s with
            | some p => rw [hu] at h; exact absurd h (by simp)
            | none => exact ⟨rfl, rfl, rfl, rfl⟩
  · rintro ⟨rfl, hm, hd, hu⟩
    simp [resolve_none_eq, hm, resolveDefaultStep_eq, hd, resolveUSBStep_eq, hu]

/-- C1 witness: on the scenario snapshot of the design document (a usable
default printer A and a usable USB printer B, no hints) resolution returns
the default printer A. -/
theorem resolve_resolution_order_witness :
    resolve none none
      [{ name := "A", isDefault := true, isUSB := false, status := PStatus.Idle },
       { name := "B", isDefault := false, isUSB := true, status := PStatus.Idle }]
      = Except.ok { name := "A", isDefault := true, isUSB := false, status := PStatus.Idle } :=
  (resolve_resolution_order none none
      [{ name := "A", isDefault := true, isUSB := false, status := PStatus.Idle },
       { name := "B", isDefault := false, isUSB := true, status := PStatus.Idle }]).2.2.1
    _ rfl (by decide) (by decide)

/-- C2 counterexample: a request that carries fitToPage = false and
copies = 3 in its query string still produces a submission call with the
fixed options fitToPage = true and copies = 1, so fitToPage and copies are
not accepted inputs of the exposed print endpoint. -/
theorem print_endpoint_options_cx :
    printEndpointCall
        { headers := [],
          query := [("printer", "P"), ("fitToPage", "false"), ("copies", "3")],
          body := [7] }
      = PrintCall.toNamed "P" [7] { fitToPage := true, copies := 1 }
  ∧ callOptions (printEndpointCall
        { headers := [],
          query := [("printer", "P"), ("fitToPage", "false"), ("copies", "3")],
          body := [7] })
      ≠ { fitToPage := false, copies := 3 } := by
  constructor
  · rfl
  · decide

/-- C2 (amended): the submission call of the print endpoint is a function
of the printer-name hint and the body bytes alone, its options are always
the fixed fitToPage = true and copies = 1, and the success response is the
pair of the resolved printer name and the job id returned by the
underlying submission function. -/
theorem print_endpoint_contract
    (printImageResult : String → List Nat → PrintOptions → Except String String)
    (printToUSBResult : List Nat → PrintOptions → Except String PrintSuccess)
    (req req2 : HttpRequest)
    (hname : requestPrinterName req2 = requestPrinterName req)
    (hbody : req2.body = req.body) :
    printEndpointCall req2 = printEndpointCall req
  ∧ callOptions (printEndpointCall req) = { fitToPage := true, copies := 1 }
  ∧ (∀ n j, requestPrinterName req = some n →
        printImageResult n req.body { fitToPage := true, copies := 1 } = Except.ok j →
        printEndpointRespond printImageResult printToUSBResult req
          = Except.ok { printerName := n, jobId := j })
  ∧ (∀ r, requestPrinterName req = none →
        printToUSBResult req.body { fitToPage := true, copies := 1 } = Except.ok r →
        printEndpointRespond printImageResult printToUSBResult req = Except.ok r) := by
  refine ⟨?_, ?_, ?_, ?_⟩
  · unfold printEndpointCall
    rw [hname, hbody]
  · unfold printEndpointCall
    cases requestPrinterName req <;> rfl
  · intro n j hn hj
    simp [printEndpointRespond, hn, hj]
  · intro r hn hr
    simp [printEndpointRespond, hn, hr]

/-- C2 witness: with a request naming printer P in its header and a
submission function returning job id job-1, the endpoint responds with
exactly that printer name and job id. -/
theorem print_endpoint_contract_witness :
    printEndpointRespond (fun _ _ _ => Except.ok "job-1")
        (fun _ _ => Except.ok { printerName := "U", jobId := "u-1" })
        { headers := [("X-Printer-Name", "P")], query := [], body := [0] }
      = Except.ok { printerName := "P", jobId := "job-1" } :=
  (print_endpoint_contract (fun _ _ _ => Except.ok "job-1")
      (fun _ _ => Except.ok { printerName := "U", jobId := "u-1" })
      { headers := [("X-Printer-Name", "P")], query := [], body := [0] }
      { headers := [("X-Printer-Name", "P")], query := [], body := [0] }
      rfl rfl).2.2.1 "P" "job-1" (by decide) rfl

/-- C3: a submission whose copies option is zero or negative fails with
InvalidOptions and its device-call trace is empty — no call reaches the
device transport or the spooler. -/
theorem submit_nonpositive_copies_rejected (host : HostModel) (target : Printer)
    (image : List Nat) (opts : PrintOptions) (h : opts.copies ≤ 0) :
    submit host target image opts = (Except.error SubmissionError.InvalidOptions, []) := by
  unfold submit
  rw [if_pos h]

/-- C3 witness: submitting with copies = 0 to a USB printer under a host
whose calls would all succeed still fails with InvalidOptions and makes no
device call. -/
theorem submit_nonpositive_copies_rejected_witness :
    submit { rawWrite := fun _ _ => Except.ok (), spoolJob := fun _ _ _ => Except.ok "j1" }
        { name := "U", isDefault := false, isUSB := true, status := PStatus.Idle }
        [1, 2] { fitToPage := true, copies := 0 }
      = (Except.error SubmissionError.InvalidOptions, []) :=
  submit_nonpositive_copies_rejected _ _ _ _ (by decide)

/-- C4: when refresh fails on a registry holding a non-empty snapshot, the
state is unchanged, listPrinters afterwards returns exactly the prior
snapshot and the failure is signalled to the caller. -/
theorem refresh_failure_keeps_snapshot (st : RegistryState) (e : String)
    (hne : st.snapshot ≠ []) :
    (refresh st (Except.error e)).1 = st
  ∧ listPrinters (refresh st (Except.error e)).1 = listPrinters st
  ∧ (refresh st (Except.error e)).2 = Except.error e :=
  ⟨rfl, rfl, rfl⟩

/-- C4 witness: a failed refresh on a one-printer registry keeps the state,
keeps the list and reports the enumeration error. -/
theorem refresh_failure_keeps_snapshot_witness :
    (refresh regA (Except.error "enumerate failed")).1 = regA
  ∧ listPrinters (refresh regA (Except.error "enumerate failed")).1 = listPrinters regA
  ∧ (refresh regA (Except.error "enumerate failed")).2 = Except.error "enumerate failed" :=
  refresh_failure_keeps_snapshot regA "enumerate failed" (by decide)

/-- C5: an explicit name that names no printer in the snapshot makes
resolution fail with PrinterNotFound, whatever the lastSelected hint and
whatever the other printers look like; no later step is reached. -/
theorem resolve_unknown_explicit_fails (n : String) (l : Option String)
    (s : List Printer) (h : ∀ p ∈ s, p.name ≠ n) :
    resolve (some n) l s = Except.error ResolutionError.PrinterNotFound := by
  have hf : findPrinter n s = none := by
    unfold findPrinter
    rw [List.find?_eq_none]
    intro p hp
    simpa using h p hp
  simp [resolve, hf]

/-- C5 witness: explicit name Z over a snapshot holding only a usable
default USB printer B, with lastSelected = B, still fails with
PrinterNotFound. -/
theorem resolve_unknown_explicit_fails_witness :
    resolve (some "Z") (some "B")
        [{ name := "B", isDefault := true, isUSB := true, status := PStatus.Idle }]
      = Except.error ResolutionError.PrinterNotFound :=
  resolve_unknown_explicit_fails "Z" (some "B") _ (by decide)

/-- C6: resolution is deterministic — equal triples of explicit hint,
last-selected hint and snapshot give equal outcomes. In this embedding
resolve is a pure function of the triple, mirroring the design document,
so it can touch no state besides its arguments and mutates neither the
snapshot nor the hints. -/
theorem resolve_deterministic (e f l m : Option String) (s t : List Printer)
    (he : e = f) (hl : l = m) (hs : s = t) :
    resolve e l s = resolve f m t := by
  rw [he, hl, hs]

/-- C6 witness: two invocations on the same concrete triple agree. -/
theorem resolve_deterministic_witness :
    resolve (some "A") none
        [{ name := "A", isDefault := false, isUSB := true, status := PStatus.Idle }]
      = resolve (some "A") none
          [{ name := "A", isDefault := false, isUSB := true, status := PStatus.Idle }] :=
  resolve_deterministic (some "A") (some "A") none none
    [{ name := "A", isDefault := false, isUSB := true, status := PStatus.Idle }]
    [{ name := "A", isDefault := false, isUSB := true, status := PStatus.Idle }]
    rfl rfl rfl

/-- C7: over a snapshot with pairwise distinct printer names, one watcher
tick issues exactly one resume call for each Paused printer and none for a
printer in any other status; which calls are issued does not depend on the
outcomes of the resume calls (so a failed call is not retried within the
tick and no second call for the same printer can be in flight); and the
tick leaves the registry state untouched, so a printer whose resume call
failed is still Paused until a later tick. -/
theorem watcher_tick_one_resume_per_paused (f g : String → Bool) (st : RegistryState)
    (hnd : (st.snapshot.map Printer.name).Nodup) :
    (∀ p ∈ st.snapshot,
        ((watcherTick f st).1.map Prod.fst).count p.name
          = if p.status = PStatus.Paused then 1 else 0)
  ∧ (watcherTick f st).1.map Prod.fst = (watcherTick g st).1.map Prod.fst
  ∧ (watcherTick f st).2 = st := by
  have hcmds : ∀ h : String → Bool,
      (watcherTick h st).1.map Prod.fst = tickResumeCommands st.snapshot := by
    intro h
    show ((tickResumeCommands (listPrinters st)).map (fun n => (n, h n))).map Prod.fst
        = tickResumeCommands st.snapshot
    have hfun : (Prod.fst ∘ fun n : String => (n, h n)) = fun n => n := rfl
    rw [List.map_map, hfun, List.map_id']
    rfl
  refine ⟨?_, by rw [hcmds f, hcmds g], rfl⟩
  intro p hp
  rw [hcmds f]
  unfold tickResumeCommands
  by_cases hps : p.status = PStatus.Paused
  · rw [if_pos hps]
    have hsub : ((st.snapshot.filter
          (fun q => decide (q.status = PStatus.Paused))).map Printer.name).Sublist
        (st.snapshot.map Printer.name) :=
      (List.filter_sublist _).map Printer.name
    have hnd2 := hnd.sublist hsub
    have hmem : p.name ∈ (st.snapshot.filter
        (fun q => decide (q.status = PStatus.Paused))).map Printer.name :=
      List.mem_map_of_mem Printer.name (List.mem_filter.mpr ⟨hp, by simp [hps]⟩)
    exact List.count_eq_one_of_mem hnd2 hmem
  · rw [if_neg hps]
    rw [List.count_eq_zero]
    intro hmem
    obtain ⟨q, hq, hqname⟩ := List.mem_map.mp hmem
    obtain ⟨hqs, hqpaused⟩ := List.mem_filter.mp hq
    have hqp : q = p := List.inj_on_of_nodup_map hnd hqs hp hqname
    rw [hqp] at hqpaused
    simp at hqpaused
    exact hps hqpaused

/-- C7 witness: on a snapshot with one Paused printer P and one Idle
printer Q, a tick whose resume call fails issues exactly one resume for P,
none for Q, issues the same calls as a tick whose resume succeeds, and
leaves the registry state unchanged. -/
theorem watcher_tick_one_resume_per_paused_witness :
    ((watcherTick (fun _ => false) regPQ).1.map Prod.fst).count "P" = 1
  ∧ ((watcherTick (fun _ => false) regPQ).1.map Prod.fst).count "Q" = 0
  ∧ (watcherTick (fun _ => false) regPQ).2 = regPQ := by
  have h := watcher_tick_one_resume_per_paused (fun _ => false) (fun _ => true)
    regPQ (by decide)
  refine ⟨?_, ?_, h.2.2⟩
  · have hP := h.1 pausedP (by decide)
    simpa [pausedP] using hP
  · have hQ := h.1 idleQ (by decide)
    simpa [idleQ] using hQ

/-- C8: refresh preserves the at-most-one-default invariant (a successful
refresh installs the host enumeration, which respects it; a failed refresh
keeps the prior snapshot), and over any refreshed snapshot in which every
printer has isDefault = false, hint-free resolution either returns a
usable USB printer or fails with NoUsablePrinter. -/
theorem refresh_default_invariant (st : RegistryState)
    (r : Except String (List Printer))
    (hst : atMostOneDefault st.snapshot)
    (henum : ∀ ps, r = Except.ok ps → atMostOneDefault ps) :
    atMostOneDefault (refresh st r).1.snapshot
  ∧ ((∀ p ∈ (refresh st r).1.snapshot, p.isDefault = false) →
      (∃ p, resolve none none (refresh st r).1.snapshot = Except.ok p
          ∧ p.isUSB = true ∧ usable p = true)
        ∨ resolve none none (refresh st r).1.snapshot
            = Except.error ResolutionError.NoUsablePrinter) := by
  constructor
  · cases r with
    | ok ps => exact henum ps rfl
    | error e => exact hst
  · intro hnodef
    generalize (refresh st r).1.snapshot = s at hnodef
    have hfind : s.find? (fun p => p.isDefault) = none := by
      rw [List.find?_eq_none]
      intro p hp
      simp [hnodef p hp]
    have hdm : defaultMatch s = none := by
      unfold defaultMatch
      rw [hfind]
    have hlm : lastSelectedMatch none s = none := rfl
    cases hu : usbMatch s with
    | some p =>
      left
      refine ⟨p, ?_, ?_, ?_⟩
      · rw [resolve_none_eq]
        simp [hlm, resolveDefaultStep_eq, hdm, resolveUSBStep_eq, hu]
      · have := List.find?_some hu
        exact (Bool.and_eq_true _ _ |>.mp this).1
      · have := List.find?_some hu
        exact (Bool.and_eq_true _ _ |>.mp this).2
    | none =>
      right
      rw [resolve_none_eq]
      simp [hlm, resolveDefaultStep_eq, hdm, resolveUSBStep_eq, hu]

/-- C8 witness: refreshing an empty registry with a host enumeration that
reports a single non-default usable USB printer U keeps the invariant, and
hint-free resolution over the refreshed snapshot returns U. -/
theorem refresh_default_invariant_witness :
    atMostOneDefault (refresh { snapshot := [] } (Except.ok enumU)).1.snapshot
  ∧ ((∃ p, resolve none none (refresh { snapshot := [] } (Except.ok enumU)).1.snapshot
          = Except.ok p ∧ p.isUSB = true ∧ usable p = true)
      ∨ resolve none none (refresh { snapshot := [] } (Except.ok enumU)).1.snapshot
          = Except.error ResolutionError.NoUsablePrinter) := by
  have h := refresh_default_invariant { snapshot := [] } (Except.ok enumU)
    (by simp [atMostOneDefault])
    (fun ps hps => by cases hps; simp [atMostOneDefault, enumU])
  exact ⟨h.1, h.2 (by decide)⟩

/-- C9: changing the printer selection writes the chosen name to the
client-held storage and to the in-memory selection, and the print request
the client then sends carries that name in its X-Printer-Name header, which
is exactly what the server extracts as its explicit-name hint. The server
embedding is a function of the request alone — src/server.ts keeps no
selection state, so the core never persists the selection. -/
theorem selection_client_persisted (st : ClientState) (v : String)
    (img : List Nat) (hv : v ≠ "") :
    (onPrinterSelectChange st v).storedPrinter = some v
  ∧ (onPrinterSelectChange st v).selectedPrinter = some v
  ∧ requestPrinterName
      (mkPrintRequest (onPrinterSelectChange st v).selectedPrinter img) = some v := by
  refine ⟨rfl, rfl, ?_⟩
  simp [onPrinterSelectChange, mkPrintRequest, printRequestHeaders, requestPrinterName,
    lookupKey, jsTruthy, hv]

/-- C9 witness: selecting the printer HP stores HP, and the next print
request carries HP as the explicit-name hint the server reads. -/
theorem selection_client_persisted_witness :
    (onPrinterSelectChange { selectedPrinter := none, storedPrinter := none } "HP").storedPrinter
      = some "HP"
  ∧ (onPrinterSelectChange { selectedPrinter := none, storedPrinter := none } "HP").selectedPrinter
      = some "HP"
  ∧ requestPrinterName
      (mkPrintRequest (onPrinterSelectChange
        { selectedPrinter := none, storedPrinter := none } "HP").selectedPrinter [3])
      = some "HP" :=
  selection_client_persisted { selectedPrinter := none, storedPrinter := none } "HP" [3]
    (by decide)

/-- C10: every request to the print endpoint produces a submission call
whose options are the constants fitToPage = true and copies = 1, on the
named-printer path and on the USB-fallback path alike, whatever the body,
headers or query string carry. -/
theorem print_endpoint_fixed_options (req : HttpRequest) :
    callOptions (printEndpointCall req) = { fitToPage := true, copies := 1 } := by
  unfold printEndpointCall
  cases requestPrinterName req <;> rfl

end StickerDream
